import Mathlib

/-
Verification of the node-asana dispatch core: a shallow embedding of the
Dispatcher (verb methods, url building, authentication, completion handling),
the error taxonomy, and the BasicAuthenticator, together with theorems about
their behaviour.
-/

/-- A JSON value, as parsed by the transport in JSON mode. -/
inductive Json where
  | null
  | bool (b : Bool)
  | num (n : Int)
  | str (s : String)
  | arr (elems : List Json)
  | obj (fields : List (String × Json))

/-- Field lookup in a JSON object field list: first binding wins. -/
def lookupField : List (String × Json) → String → Option Json
  | [], _ => none
  | (k, v) :: rest, key => if k = key then some v else lookupField rest key

/-- Property access on a JSON value, JavaScript style: a missing field, or
access on a non-object, yields none (the undefined value). -/
def Json.getField : Json → String → Option Json
  | .obj fields, key => lookupField fields key
  | _, _ => none

/-- Credential material attached by the basic authenticator: a
username and password pair for HTTP basic auth. -/
structure AuthCred where
  username : String
  password : String
deriving DecidableEq

/-- Modelled from the spec: the value returned by ensureCredentials, an
asynchronous operation that is either already resolved (no network needed)
or still pending; distinct pending operations carry distinct ids so that
identity pass-through is observable. -/
inductive CredPromise where
  | resolved
  | pending (id : Nat)
deriving DecidableEq

/-- A transport-level failure (DNS, connection refused, timeout), produced
before any HTTP status is known. -/
structure TransportError where
  message : String
deriving DecidableEq

/-- The json field of a request descriptor: either the boolean JSON-mode
flag (GET and DELETE) or a JSON request body (POST and PUT). -/
inductive JsonField where
  | flag (b : Bool)
  | body (v : Json)

/-- Modelled from the spec: the request descriptor handed to the HTTP
transport, with fields method, url, qs (optional query map), json and auth
(missing from src, described in the external-interfaces section). -/
structure RequestDescriptor where
  method : String
  url : String
  qs : Option (List (String × String))
  json : JsonField
  auth : Option AuthCred

/-- Modelled from the spec: the Authenticator capability interface
(missing from src): a synchronous descriptor transform attaching
credentials, and the asynchronous ensureCredentials operation. -/
structure Authenticator where
  authenticateRequest : RequestDescriptor → RequestDescriptor
  ensureCredentials : CredPromise

/-- Modelled from the spec: the closed enumeration of error kinds of the
error taxonomy (lib/errors.js is missing from src). -/
inductive ErrorKind where
  | invalidRequest
  | noAuthorization
  | forbidden
  | notFound
  | rateLimit
  | serverError
  | serviceUnavailable
deriving DecidableEq

/-- Modelled from the spec: the HTTP status carried by each error kind. -/
def ErrorKind.status : ErrorKind → Nat
  | .invalidRequest => 400
  | .noAuthorization => 401
  | .forbidden => 403
  | .notFound => 404
  | .rateLimit => 429
  | .serverError => 500
  | .serviceUnavailable => 503

/-- Modelled from the spec: the fixed default message of each error kind
(the exact strings are not pinned by the spec; each kind has one fixed
default). -/
def ErrorKind.defaultMessage : ErrorKind → String
  | .invalidRequest => "Invalid Request"
  | .noAuthorization => "No Authorization"
  | .forbidden => "Forbidden"
  | .notFound => "Not Found"
  | .rateLimit => "Rate Limit Enforced"
  | .serverError => "Server Error"
  | .serviceUnavailable => "Service Unavailable"

/-- Modelled from the spec: a typed API error, tagged by kind and carrying
the originating status and a message; equality is structural. -/
structure ApiError where
  kind : ErrorKind
  status : Nat
  message : String
deriving DecidableEq

/-- Modelled from the spec: the error kind constructed with no arguments,
carrying its fixed status and default message. -/
def ErrorKind.defaultError (k : ErrorKind) : ApiError :=
  ⟨k, k.status, k.defaultMessage⟩

/-- Modelled from the spec: the closed mapping from HTTP status code to
error kind (400, 401, 403, 404, 429, 500, 503). -/
def statusToErrorKind (c : Nat) : Option ErrorKind :=
  if c = 400 then some .invalidRequest
  else if c = 401 then some .noAuthorization
  else if c = 403 then some .forbidden
  else if c = 404 then some .notFound
  else if c = 429 then some .rateLimit
  else if c = 500 then some .serverError
  else if c = 503 then some .serviceUnavailable
  else none

/-- Modelled from the spec: the Dispatcher state, an optional authenticator
and a base url (lib/dispatcher.js is missing from src; only its tests are
present). -/
structure Dispatcher where
  authenticator : Option Authenticator
  asanaBaseUrl : String

/-- The default base url used when no configuration is given. -/
def defaultAsanaBaseUrl : String := "https://app.asana.com/"

/-- A Dispatcher constructed with no configuration: null authenticator and
the default base url. -/
def defaultDispatcher : Dispatcher := ⟨none, defaultAsanaBaseUrl⟩

/-- Modelled from the spec: url building is plain concatenation of the base
url, the string api/1.0 and the path. -/
def Dispatcher.url (d : Dispatcher) (path : String) : String :=
  d.asanaBaseUrl ++ "api/1.0" ++ path

/-- Modelled from the spec: authorize delegates to ensureCredentials of the
active authenticator and returns that pending value unchanged. -/
def Dispatcher.authorize (d : Dispatcher) : Option CredPromise :=
  d.authenticator.map (fun a => a.ensureCredentials)

/-- Modelled from the spec: step 1 of dispatch, letting the authenticator
(if present) mutate the outgoing request to attach credentials. -/
def Dispatcher.applyAuth (d : Dispatcher) (r : RequestDescriptor) : RequestDescriptor :=
  match d.authenticator with
  | some a => a.authenticateRequest r
  | none => r

/-- A transport completion: either a transport-level error with no
response, or a response carrying a status code and a parsed JSON body. -/
inductive Completion where
  | err (e : TransportError)
  | resp (statusCode : Nat) (body : Json)

/-- The terminal state of one dispatch call: resolved with a value (none
plays the undefined value), rejected with the raw transport error, or
rejected with a constructed ApiError. -/
inductive DispatchOutcome where
  | resolved (value : Option Json)
  | rejectedTransport (e : TransportError)
  | rejectedApi (e : ApiError)

/-- Dispatch options; fullPayload defaults to false. -/
structure Options where
  fullPayload : Bool := false

/-- Modelled from the spec: steps 3 to 5 of dispatch. A transport error is
passed through unmodified; a response whose status maps to an error kind
rejects with that kind built with no arguments, the body ignored; otherwise
the call resolves with the whole body when fullPayload is set and with the
data field of the body (undefined when absent) when it is not. -/
def handleCompletion (opts : Options) : Completion → DispatchOutcome
  | .err e => .rejectedTransport e
  | .resp status body =>
    match statusToErrorKind status with
    | some k => .rejectedApi k.defaultError
    | none =>
      if opts.fullPayload then .resolved (some body)
      else .resolved (body.getField "data")

/-- The observable behaviour of one dispatch call: the descriptor handed to
the transport, and the outcome as a function of the transport completion. -/
structure DispatchResult where
  sent : RequestDescriptor
  outcome : Completion → DispatchOutcome

/-- Modelled from the spec: the core dispatch routine. The seed descriptor
is authenticated synchronously, handed to the transport, and the completion
is translated by handleCompletion. -/
def Dispatcher.dispatch (d : Dispatcher) (seed : RequestDescriptor) (opts : Options) :
    DispatchResult :=
  ⟨d.applyAuth seed, handleCompletion opts⟩

/-- Modelled from the spec: get builds a descriptor with method GET, the
built url, the query map as qs (no qs key when the query is omitted) and
the JSON flag, then dispatches it. -/
def Dispatcher.get (d : Dispatcher) (path : String)
    (query : Option (List (String × String))) (opts : Options) : DispatchResult :=
  d.dispatch ⟨"GET", d.url path, query, .flag true, none⟩ opts

/-- Modelled from the spec: post sends method POST with the JSON body under
the data envelope key. -/
def Dispatcher.post (d : Dispatcher) (path : String) (data : Json) (opts : Options) :
    DispatchResult :=
  d.dispatch ⟨"POST", d.url path, none, .body (Json.obj [("data", data)]), none⟩ opts

/-- Modelled from the spec: put sends method PUT with the JSON body under
the data envelope key. -/
def Dispatcher.put (d : Dispatcher) (path : String) (data : Json) (opts : Options) :
    DispatchResult :=
  d.dispatch ⟨"PUT", d.url path, none, .body (Json.obj [("data", data)]), none⟩ opts

/-- Modelled from the spec: delete sends method DELETE with neither a query
map nor a body. -/
def Dispatcher.delete (d : Dispatcher) (path : String) (opts : Options) : DispatchResult :=
  d.dispatch ⟨"DELETE", d.url path, none, .flag true, none⟩ opts

/-- The basic authenticator, from src/lib/auth/basic_authenticator.js: it
holds the fixed API key given at construction. -/
structure BasicAuthenticator where
  apiKey : String

/-- From src/lib/auth/basic_authenticator.js: authenticateRequest assigns
the auth field of the request to the pair of the API key and the empty
password, and returns the request. -/
def BasicAuthenticator.authenticateRequest (a : BasicAuthenticator)
    (request : RequestDescriptor) : RequestDescriptor :=
  { request with auth := some ⟨a.apiKey, ""⟩ }

/-- From src/lib/auth/basic_authenticator.js: ensureCredentials returns an
already-resolved value, with no network round trip. -/
def BasicAuthenticator.ensureCredentials (_ : BasicAuthenticator) : CredPromise :=
  .resolved

/-- A BasicAuthenticator packaged as the Authenticator capability. -/
def BasicAuthenticator.toAuthenticator (a : BasicAuthenticator) : Authenticator :=
  ⟨a.authenticateRequest, a.ensureCredentials⟩

/-- An authenticator that only touches the auth field of the descriptor,
leaving method, url, qs and json unchanged. -/
def attachesOnlyAuth (a : Authenticator) : Prop :=
  ∀ r : RequestDescriptor, ∃ c, a.authenticateRequest r = { r with auth := c }

/-- Every mapped status has the status recorded in its kind. -/
theorem statusToErrorKind_status (c : Nat) (k : ErrorKind)
    (h : statusToErrorKind c = some k) : k.status = c := by
  unfold statusToErrorKind at h
  split_ifs at h <;>
    (rw [Option.some.injEq] at h; subst h; simp only [ErrorKind.status]; omega)

/-- A concrete API key for witness instances. -/
def sampleKey : String := "api_key"

/-- A concrete basic authenticator for witness instances. -/
def sampleBasic : BasicAuthenticator := ⟨sampleKey⟩

/-- The concrete basic authenticator packaged as the capability. -/
def sampleAuth : Authenticator := sampleBasic.toAuthenticator

/-- A concrete request descriptor seed for witness instances. -/
def sampleSeed : RequestDescriptor :=
  ⟨"GET", "https://example.test/", none, .flag true, none⟩

/-- The concrete basic authenticator only touches the auth field. -/
theorem sampleAuth_attachesOnlyAuth : attachesOnlyAuth sampleAuth :=
  fun _ => ⟨some ⟨sampleKey, ""⟩, rfl⟩

/-- C1: for every status code C in the taxonomy mapping to kind k, a
transport completion with a null error and a response whose statusCode is C
makes the dispatch outcome a rejection with the ApiError built from k with
no arguments (same kind, status equal to C, the default message), whatever
response body is given. -/
theorem dispatch_rejects_mapped_status_with_default_error
    (C : Nat) (k : ErrorKind) (hk : statusToErrorKind C = some k)
    (d : Dispatcher) (seed : RequestDescriptor) (opts : Options) (body : Json) :
    (d.dispatch seed opts).outcome (Completion.resp C body) =
      DispatchOutcome.rejectedApi ⟨k, C, k.defaultMessage⟩ := by
  have hs := statusToErrorKind_status C k hk
  simp [Dispatcher.dispatch, handleCompletion, hk, ErrorKind.defaultError, hs]

/-- C1 witness: a 404 response rejects with the default NotFound error. -/
theorem dispatch_rejects_mapped_status_with_default_error_witness :
    statusToErrorKind 404 = some ErrorKind.notFound ∧
    ((Dispatcher.mk (some sampleAuth) defaultAsanaBaseUrl).dispatch sampleSeed
        ⟨false⟩).outcome (Completion.resp 404 Json.null) =
      DispatchOutcome.rejectedApi
        ⟨ErrorKind.notFound, 404, ErrorKind.notFound.defaultMessage⟩ :=
  ⟨by decide,
   dispatch_rejects_mapped_status_with_default_error 404 ErrorKind.notFound (by decide)
     (Dispatcher.mk (some sampleAuth) defaultAsanaBaseUrl) sampleSeed ⟨false⟩ Json.null⟩

/-- C2: a transport completion with a non-null error e and no response makes
the dispatch outcome a rejection with exactly e, never wrapped into the
ApiError taxonomy. -/
theorem dispatch_passes_transport_error_through
    (d : Dispatcher) (seed : RequestDescriptor) (opts : Options) (e : TransportError) :
    (d.dispatch seed opts).outcome (Completion.err e) =
      DispatchOutcome.rejectedTransport e :=
  rfl

/-- C3: for dispatch itself and for every verb method, the descriptor the
transport receives is authenticateRequest of the active authenticator
applied exactly once to the built seed; this holds for every authenticator
function, so whatever credential material it attaches is present on the
descriptor the transport receives, and the authentication happens before
the send. -/
theorem dispatch_authenticates_exactly_once
    (a : Authenticator) (base path : String) (seed : RequestDescriptor)
    (q : Option (List (String × String))) (data : Json) (opts : Options) :
    ((Dispatcher.mk (some a) base).dispatch seed opts).sent =
      a.authenticateRequest seed ∧
    ((Dispatcher.mk (some a) base).get path q opts).sent =
      a.authenticateRequest
        ⟨"GET", (Dispatcher.mk (some a) base).url path, q, .flag true, none⟩ ∧
    ((Dispatcher.mk (some a) base).post path data opts).sent =
      a.authenticateRequest
        ⟨"POST", (Dispatcher.mk (some a) base).url path, none,
          .body (Json.obj [("data", data)]), none⟩ ∧
    ((Dispatcher.mk (some a) base).put path data opts).sent =
      a.authenticateRequest
        ⟨"PUT", (Dispatcher.mk (some a) base).url path, none,
          .body (Json.obj [("data", data)]), none⟩ ∧
    ((Dispatcher.mk (some a) base).delete path opts).sent =
      a.authenticateRequest
        ⟨"DELETE", (Dispatcher.mk (some a) base).url path, none, .flag true, none⟩ :=
  ⟨rfl, rfl, rfl, rfl, rfl⟩

/-- C4: on a success-status completion with parsed body B, dispatch resolves
with B itself when fullPayload is set and with the data field of B
otherwise, with no check that the field exists: an object with no data
field resolves to the undefined value. -/
theorem dispatch_success_unwraps_data
    (d : Dispatcher) (seed : RequestDescriptor) (body : Json) :
    ((d.dispatch seed ⟨true⟩).outcome (Completion.resp 200 body) =
      DispatchOutcome.resolved (some body)) ∧
    ((d.dispatch seed ⟨false⟩).outcome (Completion.resp 200 body) =
      DispatchOutcome.resolved (body.getField "data")) ∧
    (Json.obj [("meta", Json.num 42)]).getField "data" = none ∧
    ((d.dispatch seed ⟨false⟩).outcome
        (Completion.resp 200 (Json.obj [("meta", Json.num 42)])) =
      DispatchOutcome.resolved none) :=
  ⟨rfl, rfl, rfl, rfl⟩

/-- C5: url is a pure function: for every configured base url and every
path starting with a slash, the result is the base url concatenated with
api/1.0 and the path, with no further normalization; with the default base
url the path /users/me yields https://app.asana.com/api/1.0/users/me. -/
theorem url_is_concatenation
    (auth : Option Authenticator) (base path : String)
    (h : ∃ rest, path = "/" ++ rest) :
    (Dispatcher.mk auth base).url path = base ++ "api/1.0" ++ path ∧
    defaultDispatcher.url "/users/me" = "https://app.asana.com/api/1.0/users/me" :=
  ⟨rfl, rfl⟩

/-- C5 witness: the default scenario evaluated at the path /users/me. -/
theorem url_is_concatenation_witness :
    (∃ rest, "/users/me" = "/" ++ rest) ∧
    ((Dispatcher.mk none defaultAsanaBaseUrl).url "/users/me" =
       defaultAsanaBaseUrl ++ "api/1.0" ++ "/users/me" ∧
     defaultDispatcher.url "/users/me" = "https://app.asana.com/api/1.0/users/me") :=
  ⟨⟨"users/me", rfl⟩,
   url_is_concatenation none defaultAsanaBaseUrl "/users/me" ⟨"users/me", rfl⟩⟩

/-- C6: with an authenticator that only attaches credentials, get hands the
transport a descriptor with method GET, the built url and the query map as
qs; when the query argument is omitted the sent descriptor has no qs key,
carrying only the method, the url, the JSON flag and the attached
credential. -/
theorem get_sends_method_url_query
    (a : Authenticator) (ha : attachesOnlyAuth a)
    (base path : String) (q : List (String × String)) (opts : Options) :
    (((Dispatcher.mk (some a) base).get path (some q) opts).sent.method = "GET" ∧
     ((Dispatcher.mk (some a) base).get path (some q) opts).sent.url =
       (Dispatcher.mk (some a) base).url path ∧
     ((Dispatcher.mk (some a) base).get path (some q) opts).sent.qs = some q ∧
     ((Dispatcher.mk (some a) base).get path (some q) opts).sent.json =
       JsonField.flag true) ∧
    (∃ c, ((Dispatcher.mk (some a) base).get path none opts).sent =
       ⟨"GET", (Dispatcher.mk (some a) base).url path, none, JsonField.flag true, c⟩) := by
  obtain ⟨c1, hc1⟩ :=
    ha ⟨"GET", (Dispatcher.mk (some a) base).url path, some q, .flag true, none⟩
  obtain ⟨c2, hc2⟩ :=
    ha ⟨"GET", (Dispatcher.mk (some a) base).url path, none, .flag true, none⟩
  refine ⟨⟨?_, ?_, ?_, ?_⟩, ⟨c2, ?_⟩⟩ <;>
    simp [Dispatcher.get, Dispatcher.dispatch, Dispatcher.applyAuth, hc1, hc2]

/-- C6 witness: the concrete basic authenticator, the path /users/me and a
one-entry query map. -/
theorem get_sends_method_url_query_witness :
    attachesOnlyAuth sampleAuth ∧
    ((((Dispatcher.mk (some sampleAuth) defaultAsanaBaseUrl).get "/users/me"
          (some [("opt_fields", "id,name")]) ⟨false⟩).sent.method = "GET" ∧
      (((Dispatcher.mk (some sampleAuth) defaultAsanaBaseUrl).get "/users/me"
          (some [("opt_fields", "id,name")]) ⟨false⟩).sent.url =
        (Dispatcher.mk (some sampleAuth) defaultAsanaBaseUrl).url "/users/me") ∧
      (((Dispatcher.mk (some sampleAuth) defaultAsanaBaseUrl).get "/users/me"
          (some [("opt_fields", "id,name")]) ⟨false⟩).sent.qs =
        some [("opt_fields", "id,name")]) ∧
      (((Dispatcher.mk (some sampleAuth) defaultAsanaBaseUrl).get "/users/me"
          (some [("opt_fields", "id,name")]) ⟨false⟩).sent.json =
        JsonField.flag true)) ∧
     (∃ c, ((Dispatcher.mk (some sampleAuth) defaultAsanaBaseUrl).get "/users/me"
          none ⟨false⟩).sent =
        ⟨"GET", (Dispatcher.mk (some sampleAuth) defaultAsanaBaseUrl).url "/users/me",
          none, JsonField.flag true, c⟩)) :=
  ⟨sampleAuth_attachesOnlyAuth,
   get_sends_method_url_query sampleAuth sampleAuth_attachesOnlyAuth
     defaultAsanaBaseUrl "/users/me" [("opt_fields", "id,name")] ⟨false⟩⟩

/-- C7: with an authenticator that only attaches credentials, post and put
hand the transport descriptors with methods POST and PUT respectively, the
built url and the JSON body under the data envelope key, and delete hands a
descriptor with method DELETE and the built url, carrying neither a query
map nor a body payload. -/
theorem post_put_delete_send_method_url_body
    (a : Authenticator) (ha : attachesOnlyAuth a)
    (base path : String) (data : Json) (opts : Options) :
    (((Dispatcher.mk (some a) base).post path data opts).sent.method = "POST" ∧
     ((Dispatcher.mk (some a) base).post path data opts).sent.url =
       (Dispatcher.mk (some a) base).url path ∧
     ((Dispatcher.mk (some a) base).post path data opts).sent.json =
       JsonField.body (Json.obj [("data", data)]) ∧
     ((Dispatcher.mk (some a) base).post path data opts).sent.qs = none) ∧
    (((Dispatcher.mk (some a) base).put path data opts).sent.method = "PUT" ∧
     ((Dispatcher.mk (some a) base).put path data opts).sent.url =
       (Dispatcher.mk (some a) base).url path ∧
     ((Dispatcher.mk (some a) base).put path data opts).sent.json =
       JsonField.body (Json.obj [("data", data)]) ∧
     ((Dispatcher.mk (some a) base).put path data opts).sent.qs = none) ∧
    (∃ c, ((Dispatcher.mk (some a) base).delete path opts).sent =
       ⟨"DELETE", (Dispatcher.mk (some a) base).url path, none,
         JsonField.flag true, c⟩) := by
  obtain ⟨c1, hc1⟩ :=
    ha ⟨"POST", (Dispatcher.mk (some a) base).url path, none,
      .body (Json.obj [("data", data)]), none⟩
  obtain ⟨c2, hc2⟩ :=
    ha ⟨"PUT", (Dispatcher.mk (some a) base).url path, none,
      .body (Json.obj [("data", data)]), none⟩
  obtain ⟨c3, hc3⟩ :=
    ha ⟨"DELETE", (Dispatcher.mk (some a) base).url path, none, .flag true, none⟩
  refine ⟨⟨?_, ?_, ?_, ?_⟩, ⟨?_, ?_, ?_, ?_⟩, ⟨c3, ?_⟩⟩ <;>
    simp [Dispatcher.post, Dispatcher.put, Dispatcher.delete, Dispatcher.dispatch,
      Dispatcher.applyAuth, hc1, hc2, hc3]

/-- C7 witness: the concrete basic authenticator, a workspace path and a
small JSON object payload. -/
theorem post_put_delete_send_method_url_body_witness :
    attachesOnlyAuth sampleAuth ∧
    ((((Dispatcher.mk (some sampleAuth) defaultAsanaBaseUrl).post "/workspaces/1"
          (Json.obj [("name", Json.str "Test")]) ⟨false⟩).sent.method = "POST" ∧
      (((Dispatcher.mk (some sampleAuth) defaultAsanaBaseUrl).post "/workspaces/1"
          (Json.obj [("name", Json.str "Test")]) ⟨false⟩).sent.url =
        (Dispatcher.mk (some sampleAuth) defaultAsanaBaseUrl).url "/workspaces/1") ∧
      (((Dispatcher.mk (some sampleAuth) defaultAsanaBaseUrl).post "/workspaces/1"
          (Json.obj [("name", Json.str "Test")]) ⟨false⟩).sent.json =
        JsonField.body (Json.obj [("data", Json.obj [("name", Json.str "Test")])])) ∧
      (((Dispatcher.mk (some sampleAuth) defaultAsanaBaseUrl).post "/workspaces/1"
          (Json.obj [("name", Json.str "Test")]) ⟨false⟩).sent.qs = none)) ∧
     ((((Dispatcher.mk (some sampleAuth) defaultAsanaBaseUrl).put "/workspaces/1"
          (Json.obj [("name", Json.str "Test")]) ⟨false⟩).sent.method = "PUT") ∧
      (((Dispatcher.mk (some sampleAuth) defaultAsanaBaseUrl).put "/workspaces/1"
          (Json.obj [("name", Json.str "Test")]) ⟨false⟩).sent.url =
        (Dispatcher.mk (some sampleAuth) defaultAsanaBaseUrl).url "/workspaces/1") ∧
      (((Dispatcher.mk (some sampleAuth) defaultAsanaBaseUrl).put "/workspaces/1"
          (Json.obj [("name", Json.str "Test")]) ⟨false⟩).sent.json =
        JsonField.body (Json.obj [("data", Json.obj [("name", Json.str "Test")])])) ∧
      (((Dispatcher.mk (some sampleAuth) defaultAsanaBaseUrl).put "/workspaces/1"
          (Json.obj [("name", Json.str "Test")]) ⟨false⟩).sent.qs = none)) ∧
     (∃ c, ((Dispatcher.mk (some sampleAuth) defaultAsanaBaseUrl).delete "/projects/1"
          ⟨false⟩).sent =
        ⟨"DELETE", (Dispatcher.mk (some sampleAuth) defaultAsanaBaseUrl).url "/projects/1",
          none, JsonField.flag true, c⟩)) :=
  ⟨sampleAuth_attachesOnlyAuth,
   (post_put_delete_send_method_url_body sampleAuth sampleAuth_attachesOnlyAuth
      defaultAsanaBaseUrl "/workspaces/1" (Json.obj [("name", Json.str "Test")])
      ⟨false⟩).1,
   (post_put_delete_send_method_url_body sampleAuth sampleAuth_attachesOnlyAuth
      defaultAsanaBaseUrl "/workspaces/1" (Json.obj [("name", Json.str "Test")])
      ⟨false⟩).2.1,
   (post_put_delete_send_method_url_body sampleAuth sampleAuth_attachesOnlyAuth
      defaultAsanaBaseUrl "/projects/1" (Json.obj [("name", Json.str "Test")])
      ⟨false⟩).2.2⟩

/-- C8: whenever the authenticator of a Dispatcher is set, authorize
returns exactly the value produced by ensureCredentials of that
authenticator, not re-wrapped or otherwise transformed. -/
theorem authorize_returns_ensureCredentials
    (d : Dispatcher) (a : Authenticator) (h : d.authenticator = some a) :
    d.authorize = some a.ensureCredentials := by
  simp [Dispatcher.authorize, h]

/-- C8 witness: a dispatcher holding an authenticator whose pending value
is observable. -/
theorem authorize_returns_ensureCredentials_witness :
    (Dispatcher.mk (some ⟨fun r => r, CredPromise.pending 42⟩)
        defaultAsanaBaseUrl).authenticator =
      some ⟨fun r => r, CredPromise.pending 42⟩ ∧
    (Dispatcher.mk (some ⟨fun r => r, CredPromise.pending 42⟩)
        defaultAsanaBaseUrl).authorize =
      some (Authenticator.mk (fun r => r) (CredPromise.pending 42)).ensureCredentials :=
  ⟨rfl,
   authorize_returns_ensureCredentials
     (Dispatcher.mk (some ⟨fun r => r, CredPromise.pending 42⟩) defaultAsanaBaseUrl)
     ⟨fun r => r, CredPromise.pending 42⟩ rfl⟩

/-- C9: the basic authenticator always has credentials: ensureCredentials
is an already-resolved value with no network round trip, and
authenticateRequest attaches the fixed API key as a basic-auth credential
on the descriptor and returns the mutated descriptor; both are pure
functions in this embedding, performing no I/O. -/
theorem basicAuthenticator_always_has_credentials
    (a : BasicAuthenticator) (r : RequestDescriptor) :
    a.ensureCredentials = CredPromise.resolved ∧
    a.authenticateRequest r = { r with auth := some ⟨a.apiKey, ""⟩ } ∧
    (a.authenticateRequest r).auth = some ⟨a.apiKey, ""⟩ :=
  ⟨rfl, rfl, rfl⟩

/-- C10: authenticateRequest of the basic authenticator returns the given
descriptor with auth set to the pair of the API key and the empty password,
unconditionally overwriting any auth value already present, and is
therefore idempotent. -/
theorem basicAuthenticator_overwrites_auth_idempotent
    (a : BasicAuthenticator) (r : RequestDescriptor) (c : Option AuthCred) :
    a.authenticateRequest r = { r with auth := some ⟨a.apiKey, ""⟩ } ∧
    a.authenticateRequest { r with auth := c } = { r with auth := some ⟨a.apiKey, ""⟩ } ∧
    a.authenticateRequest (a.authenticateRequest r) = a.authenticateRequest r :=
  ⟨rfl, rfl, rfl⟩
